import Mathlib

/-
Shallow embedding of `src/acconeer/exptool/structs/configbase.py`: the
declarative configuration framework of the acconeer-python-exploration
repository (parameter descriptors with typed validation, versioned JSON
dump/load, change notification, and instance-attribute protection).

Modelling conventions:
* Python `int` is modelled as `Int`, Python `float` as `Rat` (exact
  rationals).  Python `round(x, n)` is modelled as round-half-up on
  rationals; the two rounding rules differ only at exact decimal ties,
  and every concrete input used below is far from a tie, where they
  agree.
* Python exceptions are modelled by `Except PyErr`; `PyErr` separates
  ValueError / TypeError / KeyError / AttributeError, mirroring which
  exception class each code path raises.  Error message texts follow
  the source; the AttributeError message formatting of
  `Config.__setattr__` is elided to a fixed prefix plus the name.
* The JSON text layer (`json.dumps` / `json.loads`) is modelled as the
  identity transport on ordered dictionaries (association lists),
  which is faithful for the finite string-keyed maps of
  JSON-representable values that `Config._dumps` produces.  Python
  dicts keep insertion order and are modelled as association lists.
* Python list values stored in parameters (sensor id lists, float
  ranges) are flat lists of scalars in the source, so list elements
  are modelled as atoms.
-/

inductive PyAtom where
  | aNone
  | aBool (b : Bool)
  | aInt (n : Int)
  | aFloat (q : Rat)
  | aStr (s : String)
  | aEnum (en mn : String)
  deriving DecidableEq

inductive PyVal where
  | atom (a : PyAtom)
  | vList (xs : List PyAtom)
  deriving DecidableEq

@[match_pattern] def PyVal.vNone : PyVal := .atom .aNone

@[match_pattern] def PyVal.vBool (b : Bool) : PyVal := .atom (.aBool b)

@[match_pattern] def PyVal.vInt (n : Int) : PyVal := .atom (.aInt n)

@[match_pattern] def PyVal.vFloat (q : Rat) : PyVal := .atom (.aFloat q)

@[match_pattern] def PyVal.vStr (s : String) : PyVal := .atom (.aStr s)

@[match_pattern] def PyVal.vEnum (en mn : String) : PyVal := .atom (.aEnum en mn)

inductive PyErr where
  | valueError (msg : String)
  | typeError (msg : String)
  | keyError (msg : String)
  | attributeError (msg : String)
  deriving DecidableEq

/-- Decidable equality on `Except`, used to evaluate the embedding at
concrete inputs. -/
instance exceptDecEq {e a : Type} [DecidableEq e] [DecidableEq a] :
    DecidableEq (Except e a) := fun x y =>
  match x, y with
  | .ok u, .ok v =>
    match decEq u v with
    | isTrue h => isTrue (by rw [h])
    | isFalse h => isFalse (by intro hc; cases hc; exact h rfl)
  | .error u, .error v =>
    match decEq u v with
    | isTrue h => isTrue (by rw [h])
    | isFalse h => isFalse (by intro hc; cases hc; exact h rfl)
  | .ok _, .error _ => isFalse (by intro hc; cases hc)
  | .error _, .ok _ => isFalse (by intro hc; cases hc)

/-- Python truthiness of an atom, as used by `bool(value)`. -/
def PyAtom.truthy : PyAtom → Bool
  | .aNone => false
  | .aBool b => b
  | .aInt n => n != 0
  | .aFloat q => q != 0
  | .aStr s => s != ""
  | .aEnum _ _ => true

/-- Python truthiness of a value, as used by `BoolParameter._sanitize`. -/
def pyTruthy : PyVal → Bool
  | .atom a => a.truthy
  | .vList xs => xs != []

/-- Value of a nonempty all-digit character list, `Option.none` otherwise. -/
def digitsVal (cs : List Char) : Option Nat :=
  if cs ≠ [] ∧ cs.all Char.isDigit then
    some (cs.foldl (fun a c => a * 10 + (c.toNat - 48)) 0)
  else
    Option.none

/-- Strip one optional leading sign, returning the sign as `1` or `-1`
and the remaining characters. -/
def splitSign (cs : List Char) : Int × List Char :=
  match cs with
  | [] => (1, [])
  | c :: rest =>
    if c = '-' then (-1, rest)
    else if c = '+' then (1, rest)
    else (1, cs)

/-- Split a character list at its first dot, returning the part before it
and, when a dot is present, the part after it. -/
def splitDot (cs : List Char) : List Char × Option (List Char) :=
  match cs with
  | [] => ([], Option.none)
  | c :: rest =>
    if c = '.' then ([], some rest)
    else
      match splitDot rest with
      | (ip, fp) => (c :: ip, fp)

/-- Python `int(s)` on strings, modelled for an optional sign followed by
digits (the corner syntax Python additionally accepts, such as surrounding
whitespace or underscores, is not exercised by any claim). -/
def pyParseInt (s : String) : Option Int :=
  match splitSign s.toList with
  | (sign, cs) => (digitsVal cs).map (fun n => sign * (n : Int))

/-- Python `float(s)` on strings, modelled for an optional sign, digits
and an optional dot-separated fractional part. -/
def pyParseFloat (s : String) : Option Rat :=
  match splitSign s.toList with
  | (sign, cs) =>
    match splitDot cs with
    | (ip, Option.none) => (digitsVal ip).map (fun n => ((sign * (n : Int) : Int) : Rat))
    | (ip, some fp) =>
      match digitsVal ip, digitsVal fp with
      | some i, some f =>
        some (Rat.divInt (sign * ((i : Int) * (10 : Int) ^ fp.length + (f : Int)))
          ((10 : Int) ^ fp.length))
      | _, _ => Option.none

/-- Python `round(x, d)` to `d` decimals, modelled as round-half-up:
`floor(x * 10 ^ d + 1 / 2) / 10 ^ d`, written over the numerator and
denominator so that the kernel can evaluate it (for a fraction `a / b`
with `b > 0`, `floor(a / b + 1 / 2) = (2 * a + b).fdiv (2 * b)`). -/
def pround (d : Nat) (q : Rat) : Rat :=
  Rat.divInt
    ((2 * (q.num * (10 : Int) ^ d) + (q.den : Int)).fdiv (2 * (q.den : Int)))
    ((10 : Int) ^ d)

/-- Limit checking of `IntParameter._sanitize` (configbase.py lines
256-262): `limits` is `None` or a pair `(lower, upper)` of optional
bounds; a value below a present lower bound or above a present upper
bound raises a ValueError. -/
def checkLimitsI (lims : Option (Option Int × Option Int)) (n : Int) : Except PyErr Int :=
  match lims with
  | Option.none => .ok n
  | some (lo, up) =>
    if (match lo with | some l => decide (n < l) | Option.none => false) then
      .error (.valueError ("Given value is too low"))
    else if (match up with | some u => decide (n > u) | Option.none => false) then
      .error (.valueError ("Given value is too high"))
    else .ok n

/-- Limit checking of `FloatParameter._sanitize` (configbase.py lines
294-300), identical in shape to the integer case. -/
def checkLimitsQ (lims : Option (Option Rat × Option Rat)) (q : Rat) : Except PyErr Rat :=
  match lims with
  | Option.none => .ok q
  | some (lo, up) =>
    if (match lo with | some l => decide (q < l) | Option.none => false) then
      .error (.valueError ("Given value is too low"))
    else if (match up with | some u => decide (q > u) | Option.none => false) then
      .error (.valueError ("Given value is too high"))
    else .ok q

/-- Violation of a present lower integer limit. -/
def lowViolI (lims : Option (Option Int × Option Int)) (n : Int) : Bool :=
  match lims with
  | some (some l, _) => decide (n < l)
  | _ => false

/-- Violation of a present upper integer limit. -/
def highViolI (lims : Option (Option Int × Option Int)) (n : Int) : Bool :=
  match lims with
  | some (_, some u) => decide (n > u)
  | _ => false

/-- The integer `n` passes the limit check. -/
def withinI (lims : Option (Option Int × Option Int)) (n : Int) : Bool :=
  !(lowViolI lims n) && !(highViolI lims n)

/-- Violation of a present lower float limit. -/
def lowViolQ (lims : Option (Option Rat × Option Rat)) (q : Rat) : Bool :=
  match lims with
  | some (some l, _) => decide (q < l)
  | _ => false

/-- Violation of a present upper float limit. -/
def highViolQ (lims : Option (Option Rat × Option Rat)) (q : Rat) : Bool :=
  match lims with
  | some (_, some u) => decide (q > u)
  | _ => false

/-- The rational `q` passes the limit check. -/
def withinQ (lims : Option (Option Rat × Option Rat)) (q : Rat) : Bool :=
  !(lowViolQ lims q) && !(highViolQ lims q)

/-- `IntParameter._sanitize` (configbase.py lines 247-264): rejects floats
with a fractional part, coerces with `int(...)` (catching only ValueError,
so non-numeric non-string arguments propagate a TypeError), then checks
limits. -/
def intSan (lims : Option (Option Int × Option Int)) (v : PyVal) : Except PyErr PyVal :=
  match v with
  | .vFloat q =>
    if q.den ≠ 1 then .error (.valueError ("Not an integer"))
    else
      match checkLimitsI lims q.num with
      | .error e => .error e
      | .ok n => .ok (.vInt n)
  | .vInt n =>
    match checkLimitsI lims n with
    | .error e => .error e
    | .ok m => .ok (.vInt m)
  | .vBool b =>
    match checkLimitsI lims (if b then 1 else 0) with
    | .error e => .error e
    | .ok m => .ok (.vInt m)
  | .vStr s =>
    match pyParseInt s with
    | some n =>
      match checkLimitsI lims n with
      | .error e => .error e
      | .ok m => .ok (.vInt m)
    | Option.none => .error (.valueError ("Not a valid integer"))
  | _ => .error (.typeError ("int() argument is not a string or a number"))

/-- Python `float(value)` as used in `FloatParameter._sanitize`: the
enclosing `try` catches only ValueError, so string parse failures become
the ValueError below while non-numeric non-string arguments propagate a
TypeError. -/
def floatOfVal : PyVal → Except PyErr Rat
  | .vFloat q => .ok q
  | .vInt n => .ok (n : Rat)
  | .vBool b => .ok (if b then 1 else 0)
  | .vStr s =>
    match pyParseFloat s with
    | some q => .ok q
    | Option.none => .error (.valueError ("Not a valid number"))
  | _ => .error (.typeError ("float() argument is not a string or a number"))

/-- `FloatParameter._sanitize` (configbase.py lines 286-302) producing the
sanitized rational: coerce with `float(...)`, round to `decimals`, then
check limits against the rounded value. -/
def floatSanQ (d : Nat) (lims : Option (Option Rat × Option Rat)) (v : PyVal) :
    Except PyErr Rat :=
  match floatOfVal v with
  | .error e => .error e
  | .ok q => checkLimitsQ lims (pround d q)

/-- `FloatParameter._sanitize` as a value-to-value function. -/
def floatSan (d : Nat) (lims : Option (Option Rat × Option Rat)) (v : PyVal) :
    Except PyErr PyVal :=
  match floatSanQ d lims v with
  | .error e => .error e
  | .ok q => .ok (.vFloat q)

/-- Python `list(arg)` as used in `FloatRangeParameter._sanitize`: lists
iterate to their elements, strings to their characters, everything else
raises (TypeError, caught by the source and turned into a ValueError). -/
def pyIter : PyVal → Option (List PyAtom)
  | .vList xs => some xs
  | .vStr s => some (s.toList.map (fun c => .aStr (String.singleton c)))
  | _ => Option.none

/-- `FloatRangeParameter._sanitize` (configbase.py lines 311-326): turn
the argument into a list (non-iterables raise a ValueError), require
exactly two elements, sanitize each element as a float (same `decimals`
and `limits`), and require the first not to exceed the second. -/
def floatRangeSan (d : Nat) (lims : Option (Option Rat × Option Rat)) (arg : PyVal) :
    Except PyErr PyVal :=
  match pyIter arg with
  | Option.none => .error (.valueError ("Not a valid range"))
  | some values =>
    match values with
    | [x, y] =>
      match floatSanQ d lims (.atom x) with
      | .error e => .error e
      | .ok a =>
        match floatSanQ d lims (.atom y) with
        | .error e => .error e
        | .ok b =>
          if a > b then .error (.valueError ("Invalid range"))
          else .ok (.vList [.aFloat a, .aFloat b])
    | _ => .error (.valueError ("Given range does not have two values"))

/-- Python `isinstance(e, int)`, which is also true for `bool`. -/
def isIntLike : PyAtom → Bool
  | .aInt _ => true
  | .aBool _ => true
  | _ => false

/-- `SensorParameter._sanitize` (configbase.py lines 336-344): an int
becomes a singleton list, a list of ints is shallow-copied, anything else
raises a ValueError. -/
def sensorSan : PyVal → Except PyErr PyVal
  | .vInt n => .ok (.vList [.aInt n])
  | .vBool b => .ok (.vList [.aBool b])
  | .vList xs =>
    if xs.all isIntLike then .ok (.vList xs)
    else .error (.valueError ("sensor(s) must be an int or a list of ints"))
  | _ => .error (.valueError ("sensor(s) must be an int or a list of ints"))

/-- Shape of a `ValueParameter` subclass together with its per-kind
constructor arguments: `BoolParameter`, `IntParameter` (limits),
`FloatParameter` and `FloatRangeParameter` (decimals, limits),
`EnumParameter` (the enum class, as its name and member names) and
`SensorParameter`. -/
inductive PSpec where
  | boolP
  | intP (limits : Option (Option Int × Option Int))
  | floatP (decimals : Nat) (limits : Option (Option Rat × Option Rat))
  | floatRangeP (decimals : Nat) (limits : Option (Option Rat × Option Rat))
  | enumP (ename : String) (members : List String)
  | sensorP
  deriving DecidableEq

/-- A `ValueParameter` descriptor: its kind-specific data, the
`optional` flag, the `does_dump` flag (default `True` for value
parameters) and the sanitized default value. -/
structure Param where
  spec : PSpec
  optional : Bool := false
  does_dump : Bool := true
  default_value : PyVal := .vNone
  deriving DecidableEq

/-- Dispatch of `_sanitize` over the parameter kinds
(`EnumParameter` inherits the identity `ValueParameter._sanitize`). -/
def Param.sanitizeRaw (p : Param) (v : PyVal) : Except PyErr PyVal :=
  match p.spec with
  | .boolP => .ok (.vBool (pyTruthy v))
  | .intP lims => intSan lims v
  | .floatP d lims => floatSan d lims v
  | .floatRangeP d lims => floatRangeSan d lims v
  | .enumP _ _ => .ok v
  | .sensorP => sensorSan v

/-- `ValueParameter.sanitize` (configbase.py lines 161-165): `None` is
passed through untouched for optional parameters, everything else goes
through `_sanitize`.  `__set__` stores exactly this sanitized value. -/
def Param.sanitize (p : Param) (v : PyVal) : Except PyErr PyVal :=
  if p.optional && (v == PyVal.vNone) then .ok v else p.sanitizeRaw v

/-- `EnumParameter.dump` reads `.name` of the current value; a value that
is not an enum member has no `name` attribute. -/
def pyName : PyVal → Except PyErr PyVal
  | .vEnum _ mn => .ok (.vStr mn)
  | _ => .error (.attributeError ("object has no attribute name"))

/-- `Parameter.dump` dispatch: `EnumParameter.dump` returns the member
name, `FloatRangeParameter.dump` returns `list(...)` of the stored range
(a TypeError for a non-iterable stored value such as `None`), and plain
`ValueParameter.dump` returns the value itself. -/
def Param.dumpVal (p : Param) (v : PyVal) : Except PyErr PyVal :=
  match p.spec with
  | .enumP _ _ => pyName v
  | .floatRangeP _ _ =>
    match pyIter v with
    | some xs => .ok (.vList xs)
    | Option.none => .error (.typeError ("argument is not iterable"))
  | _ => .ok v

/-- `Parameter.load` dispatch, returning the value that `__set__` would
store: `EnumParameter.load` first resolves `enum[value]` (a KeyError on a
missing or non-string name) and then sets the member; every other value
parameter sets the loaded value directly. -/
def Param.loadVal (p : Param) (v : PyVal) : Except PyErr PyVal :=
  match p.spec with
  | .enumP ename members =>
    match v with
    | .vStr s =>
      if members.contains s then p.sanitize (.vEnum ename s)
      else .error (.keyError s)
    | _ => .error (.keyError ("enum name"))
  | _ => p.sanitize v

/-- A `Config` subclass: its `VERSION` class attribute and its declared
parameters in the order produced by `_get_keys_and_params` (sorted by the
`order` field over `dir(self)`). -/
structure ConfigClass where
  VERSION : Option Int
  params : List (String × Param)

/-- Per-instance parameter storage (each parameter keeps a
`WeakKeyDictionary` entry for the instance; per instance this is a finite
map from parameter name to stored value, absent when unset). -/
abbrev ConfigState : Type := List (String × PyVal)

/-- Store (or overwrite) one key in an association list, keeping the
position of an existing key. -/
def setAssoc (l : List (String × PyVal)) (k : String) (v : PyVal) : List (String × PyVal) :=
  match l with
  | [] => [(k, v)]
  | (k0, v0) :: rest => if k0 = k then (k, v) :: rest else (k0, v0) :: setAssoc rest k v

/-- `ValueParameter.__get__` at the value level: the stored value, or the
sanitized default when unset.  (The `copy(...)` the source applies is
about object identity, not value, and is modelled separately with an
explicit heap below.) -/
def Config.getVal (st : ConfigState) (k : String) (p : Param) : PyVal :=
  (List.lookup k st).getD p.default_value

/-- The dict comprehension of `Config._dumps` (configbase.py line 445):
dump every parameter with `does_dump` set, in declaration order. -/
def Config.dumpParams (st : ConfigState) : List (String × Param) → Except PyErr (List (String × PyVal))
  | [] => .ok []
  | (k, p) :: rest =>
    if p.does_dump then
      match p.dumpVal (Config.getVal st k p) with
      | .error e => .error e
      | .ok w =>
        match Config.dumpParams st rest with
        | .error e => .error e
        | .ok tail => .ok ((k, w) :: tail)
    else Config.dumpParams st rest

/-- `Config._dumps` (configbase.py lines 444-450): the dumped dictionary,
with a trailing `"VERSION"` entry when the class `VERSION` is not
`None`. -/
def Config.dumps (c : ConfigClass) (st : ConfigState) : Except PyErr (List (String × PyVal)) :=
  match Config.dumpParams st c.params with
  | .error e => .error e
  | .ok pairs =>
    .ok (pairs ++ (match c.VERSION with
      | some n => [(("VERSION" : String), PyVal.vInt n)]
      | Option.none => []))

/-- Python `version != self.VERSION` after `d.pop("VERSION", None)`: the
popped JSON value (absent, null, int, float or bool) compared against the
integer-or-None class attribute with Python equality. -/
def versionOk : Option PyVal → Option Int → Bool
  | Option.none, Option.none => true
  | some PyVal.vNone, Option.none => true
  | some (PyVal.vInt n), some m => n == m
  | some (PyVal.vFloat q), some m => q == (m : Rat)
  | some (PyVal.vBool b), some m => (if b then (1 : Int) else 0) == m
  | _, _ => false

/-- The load loop of `Config._loads` (configbase.py lines 438-440):
`params[k].load(self, v)` for each dumped item in order.  The state is
threaded explicitly and an exception carries the state at raise time, so
partially applied loads are observable. -/
def Config.loadItems (params : List (String × Param)) :
    ConfigState → List (String × PyVal) → Except (PyErr × ConfigState) ConfigState
  | st, [] => .ok st
  | st, (k, v) :: rest =>
    match List.lookup k params with
    | Option.none => .error (.keyError k, st)
    | some p =>
      match p.loadVal v with
      | .error e => .error (e, st)
      | .ok w => Config.loadItems params (setAssoc st k w) rest

/-- `Config._loads` (configbase.py lines 431-442): parse (modelled as the
already-parsed ordered dictionary), pop `"VERSION"` and compare it with
the class `VERSION` before anything else, then load every remaining
item. -/
def Config.loads (c : ConfigClass) (st : ConfigState) (d : List (String × PyVal)) :
    Except (PyErr × ConfigState) ConfigState :=
  if versionOk (List.lookup ("VERSION") d) c.VERSION then
    Config.loadItems c.params st (d.filter (fun kv => kv.1 != ("VERSION")))
  else
    .error (.valueError ("Configuration version mismatch"), st)

/-- `Config._parameter_event_handler` (configbase.py lines 477-479): call
every registered event handler on the config.  Handlers are arbitrary
state transformers; the iteration order of the `set` is modelled by the
list order. -/
def parameterEventHandler (handlers : List (ConfigState → ConfigState)) (st : ConfigState) :
    ConfigState :=
  handlers.foldl (fun s h => h s) st

/-- `ValueParameter.pidget_event_handler` (configbase.py lines 156-159):
`__set__` the new value (which may raise, carrying the untouched state),
then run `_parameter_event_handler`. -/
def pidgetEventHandler (handlers : List (ConfigState → ConfigState)) (p : Param) (k : String)
    (st : ConfigState) (v : PyVal) : Except (PyErr × ConfigState) ConfigState :=
  match p.sanitize v with
  | .error e => .error (e, st)
  | .ok w => .ok (parameterEventHandler handlers (setAssoc st k w))

/-
Object-identity model for `ValueParameter.__get__` (configbase.py lines
143-147): the source returns `copy(self.values.get(obj, default=self.default_value))`.
Stored values are flat (scalars, lists of scalars), so a shallow copy
yields an object sharing no mutable state with the stored one.  A heap
is a list of cells addressed by index; `copy` allocates a fresh cell
with the same contents.
-/

/-- Read a heap cell. -/
def heapRead (h : List PyVal) (a : Nat) : Option PyVal := h[a]?

/-- Overwrite a heap cell in place (a mutation of the object at `a`). -/
def heapWrite (h : List PyVal) (a : Nat) (v : PyVal) : List PyVal := h.set a v

/-- `copy(x)`: allocate a fresh cell holding the contents of `a` and
return the new heap and the fresh address. -/
def copyAlloc (h : List PyVal) (a : Nat) : List PyVal × Nat :=
  (h ++ [(heapRead h a).getD PyVal.vNone], h.length)

/-- `ValueParameter.__get__` over the heap: look up the stored address
(falling back to the default value cell) and return a copy. -/
def valueParamGet (stored : Option Nat) (defaultAddr : Nat) (h : List PyVal) :
    List PyVal × Nat :=
  copyAlloc h (stored.getD defaultAddr)

/-
Model for `Config.__setattr__` (configbase.py lines 504-509).  Python
attribute state of a config instance: the instance `__dict__` (an
association list) together with the class attributes, split into the
declared parameters (data descriptors, whose `__set__` validates and
stores) and the remaining plain class attribute names (`VERSION`,
`_event_handlers`, methods, ...).  `hasattr(self, name)` succeeds exactly
when the name is an instance attribute, a plain class attribute or a
declared parameter.
-/

/-- Python `hasattr(self, name)` for a config instance. -/
def hasAttrB (classAttrs : List String) (params : List (String × Param))
    (inst : List (String × PyVal)) (n : String) : Bool :=
  (List.lookup n inst).isSome || classAttrs.contains n || (List.lookup n params).isSome

/-- `Config.__setattr__`: names the object does not have raise an
AttributeError; declared parameters are set through their descriptor
(`__set__`, hence sanitize-and-store); other existing attributes are
written to the instance dictionary. -/
def configSetattr (classAttrs : List String) (params : List (String × Param))
    (st : ConfigState) (inst : List (String × PyVal)) (name : String) (v : PyVal) :
    Except PyErr (ConfigState × List (String × PyVal)) :=
  if hasAttrB classAttrs params inst name then
    match List.lookup name params with
    | some p =>
      match p.sanitize v with
      | .error e => .error e
      | .ok w => .ok (setAssoc st name w, inst)
    | Option.none => .ok (st, setAssoc inst name v)
  else
    .error (.attributeError ("object has no attribute " ++ name))

/-- Stored values that `Config._dumps` can serialize and that load back
to themselves: the value a parameter of each kind holds after a
successful validated set, with enum values members of the parameter's
own enum, and `None` only for optional parameters whose `dump` tolerates
it (not enums, whose dump reads `.name`, and not float ranges, whose
dump iterates the value). -/
def Param.wfDump (p : Param) (v : PyVal) : Bool :=
  match p.spec, v with
  | .boolP, .vBool _ => true
  | .intP lims, .vInt n => withinI lims n
  | .floatP d lims, .vFloat q => (pround d q == q) && withinQ lims q
  | .floatRangeP d lims, .vList [.aFloat a, .aFloat b] =>
    (pround d a == a) && (pround d b == b) && withinQ lims a && withinQ lims b && decide (a ≤ b)
  | .enumP ename ms, .vEnum en mn => (en == ename) && ms.contains mn
  | .sensorP, .vList xs => xs.all isIntLike
  | sp, .vNone =>
    p.optional && (match sp with
      | .enumP _ _ => false
      | .floatRangeP _ _ => false
      | _ => true)
  | _, _ => false

/-
Helper lemmas about the embedding.
-/

theorem checkLimitsI_eq (lims : Option (Option Int × Option Int)) (n : Int) :
    checkLimitsI lims n =
      (if lowViolI lims n then .error (.valueError ("Given value is too low"))
       else if highViolI lims n then .error (.valueError ("Given value is too high"))
       else .ok n) := by
  rcases lims with _ | ⟨_ | l, _ | u⟩ <;>
    simp [checkLimitsI, lowViolI, highViolI]

theorem checkLimitsQ_eq (lims : Option (Option Rat × Option Rat)) (q : Rat) :
    checkLimitsQ lims q =
      (if lowViolQ lims q then .error (.valueError ("Given value is too low"))
       else if highViolQ lims q then .error (.valueError ("Given value is too high"))
       else .ok q) := by
  rcases lims with _ | ⟨_ | l, _ | u⟩ <;>
    simp [checkLimitsQ, lowViolQ, highViolQ]

theorem checkLimitsI_within (lims : Option (Option Int × Option Int)) (n : Int)
    (h : withinI lims n = true) : checkLimitsI lims n = .ok n := by
  rw [checkLimitsI_eq]
  unfold withinI at h
  simp only [Bool.and_eq_true, Bool.not_eq_true'] at h
  rw [h.1, h.2]
  simp

theorem checkLimitsQ_within (lims : Option (Option Rat × Option Rat)) (q : Rat)
    (h : withinQ lims q = true) : checkLimitsQ lims q = .ok q := by
  rw [checkLimitsQ_eq]
  unfold withinQ at h
  simp only [Bool.and_eq_true, Bool.not_eq_true'] at h
  rw [h.1, h.2]
  simp

theorem lookup_setAssoc_self (l : List (String × PyVal)) (k : String) (v : PyVal) :
    List.lookup k (setAssoc l k v) = some v := by
  induction l with
  | nil => simp [setAssoc, List.lookup]
  | cons kv rest ih =>
    rcases kv with ⟨k0, v0⟩
    by_cases h : k0 = k
    · subst h
      simp [setAssoc, List.lookup]
    · have hb : (k == k0) = false := beq_eq_false_iff_ne.mpr (Ne.symm h)
      simp [setAssoc, h, List.lookup, hb, ih]

theorem lookup_setAssoc_ne (l : List (String × PyVal)) (k : String) (v : PyVal)
    (n : String) (h : n ≠ k) :
    List.lookup n (setAssoc l k v) = List.lookup n l := by
  induction l with
  | nil =>
    have hb : (n == k) = false := beq_eq_false_iff_ne.mpr h
    simp [setAssoc, List.lookup, hb]
  | cons kv rest ih =>
    rcases kv with ⟨k0, v0⟩
    by_cases hk : k0 = k
    · subst hk
      have hb : (n == k0) = false := beq_eq_false_iff_ne.mpr h
      simp [setAssoc, List.lookup, hb]
    · simp only [setAssoc, if_neg hk]
      by_cases hn : n = k0
      · subst hn
        simp [List.lookup]
      · have hb : (n == k0) = false := beq_eq_false_iff_ne.mpr hn
        simp [List.lookup, hb, ih]

theorem lookup_eq_none_of_not_mem_keys {β : Type} (l : List (String × β)) (k : String)
    (h : k ∉ l.map Prod.fst) : List.lookup k l = Option.none := by
  induction l with
  | nil => simp [List.lookup]
  | cons kv rest ih =>
    simp only [List.map_cons, List.mem_cons] at h
    push_neg at h
    have hb : (k == kv.1) = false := beq_eq_false_iff_ne.mpr h.1
    rcases kv with ⟨k0, v0⟩
    simp only at hb
    simp [List.lookup, hb, ih h.2]

theorem lookup_append_left {β : Type} (l₁ l₂ : List (String × β)) (k : String)
    (h : List.lookup k l₁ = Option.none) :
    List.lookup k (l₁ ++ l₂) = List.lookup k l₂ := by
  induction l₁ with
  | nil => simp
  | cons kv rest ih =>
    rcases kv with ⟨k0, v0⟩
    by_cases hk : k = k0
    · subst hk
      simp [List.lookup] at h
    · have hb : (k == k0) = false := beq_eq_false_iff_ne.mpr hk
      simp only [List.lookup, hb, List.cons_append] at h ⊢
      exact ih h

theorem lookup_of_mem_nodup {β : Type} (l : List (String × β))
    (hnd : (l.map Prod.fst).Nodup) (k : String) (v : β) (hm : (k, v) ∈ l) :
    List.lookup k l = some v := by
  induction l with
  | nil => simp at hm
  | cons kv rest ih =>
    rcases kv with ⟨k0, v0⟩
    simp only [List.map_cons, List.nodup_cons] at hnd
    rcases List.mem_cons.mp hm with h | h
    · cases h
      simp [List.lookup]
    · have hk : k ≠ k0 := by
        intro hc
        subst hc
        exact hnd.1 (List.mem_map.mpr ⟨(k, v), h, rfl⟩)
      have hb : (k == k0) = false := beq_eq_false_iff_ne.mpr hk
      simp [List.lookup, hb, ih hnd.2 h]

theorem sanitize_of_ne_none (p : Param) (v : PyVal) (h : v ≠ PyVal.vNone) :
    p.sanitize v = p.sanitizeRaw v := by
  have hb : (v == PyVal.vNone) = false := beq_eq_false_iff_ne.mpr h
  simp [Param.sanitize, hb]

theorem sanitize_none_optional (p : Param) (h : p.optional = true) :
    p.sanitize PyVal.vNone = .ok PyVal.vNone := by
  simp [Param.sanitize, h]

theorem intSan_ok_within (lims : Option (Option Int × Option Int)) (n : Int)
    (h : withinI lims n = true) : intSan lims (.vInt n) = .ok (.vInt n) := by
  simp [intSan, checkLimitsI_within lims n h]

theorem floatSanQ_fixed (d : Nat) (lims : Option (Option Rat × Option Rat)) (q : Rat)
    (hfix : pround d q = q) (h : withinQ lims q = true) :
    floatSanQ d lims (.vFloat q) = .ok q := by
  simp [floatSanQ, floatOfVal, hfix, checkLimitsQ_within lims q h]

/-- A stored value accepted by `wfDump` dumps successfully and the dumped
value loads back to exactly the stored value. -/
theorem wfDump_roundtrip (p : Param) (v : PyVal) (h : p.wfDump v = true) :
    ∃ w, p.dumpVal v = .ok w ∧ p.loadVal w = .ok v := by
  obtain ⟨sp, opt, dd, dv⟩ := p
  rcases v with a | xs
  · rcases a with _ | b | n | q | s | ⟨en, mn⟩
    · -- stored value None: dumped as-is, reloaded through the optional
      -- shortcut of sanitize; enum and float-range dumps reject it
      rcases sp with _ | lims | ⟨d, lims⟩ | ⟨d, lims⟩ | ⟨ename, ms⟩ | _
      all_goals simp only [Param.wfDump, Bool.and_true, Bool.and_false] at h
      case floatRangeP => simp at h
      case enumP => simp at h
      all_goals
        refine ⟨PyVal.atom PyAtom.aNone, by simp [Param.dumpVal], ?_⟩
      all_goals
        have hv : ((PyVal.atom PyAtom.aNone) == PyVal.vNone) = true := rfl
      all_goals simp [Param.loadVal, Param.sanitize, h, hv]
    · -- stored Bool: only BoolParameter accepts it
      rcases sp with _ | lims | ⟨d, lims⟩ | ⟨d, lims⟩ | ⟨ename, ms⟩ | _
      case boolP =>
        refine ⟨PyVal.atom (PyAtom.aBool b), by simp [Param.dumpVal], ?_⟩
        have hne : PyVal.atom (PyAtom.aBool b) ≠ PyVal.vNone := by simp [PyVal.vNone]
        simp [Param.loadVal, sanitize_of_ne_none _ _ hne, Param.sanitizeRaw, pyTruthy,
          PyAtom.truthy, PyVal.vBool]
      all_goals simp [Param.wfDump] at h
    · -- stored Int: only IntParameter accepts it
      rcases sp with _ | lims | ⟨d, lims⟩ | ⟨d, lims⟩ | ⟨ename, ms⟩ | _
      case intP =>
        simp only [Param.wfDump] at h
        refine ⟨PyVal.atom (PyAtom.aInt n), by simp [Param.dumpVal], ?_⟩
        have hne : PyVal.atom (PyAtom.aInt n) ≠ PyVal.vNone := by simp [PyVal.vNone]
        have hs := intSan_ok_within lims n h
        simp only [PyVal.vInt] at hs
        simp [Param.loadVal, sanitize_of_ne_none _ _ hne, Param.sanitizeRaw, hs]
      all_goals simp [Param.wfDump] at h
    · -- stored Float: only FloatParameter accepts it
      rcases sp with _ | lims | ⟨d, lims⟩ | ⟨d, lims⟩ | ⟨ename, ms⟩ | _
      case floatP =>
        simp only [Param.wfDump, Bool.and_eq_true, beq_iff_eq] at h
        refine ⟨PyVal.atom (PyAtom.aFloat q), by simp [Param.dumpVal], ?_⟩
        have hne : PyVal.atom (PyAtom.aFloat q) ≠ PyVal.vNone := by simp [PyVal.vNone]
        have hs := floatSanQ_fixed d lims q h.1 h.2
        simp only [PyVal.vFloat] at hs
        simp [Param.loadVal, sanitize_of_ne_none _ _ hne, Param.sanitizeRaw, floatSan, hs,
          PyVal.vFloat]
      all_goals simp [Param.wfDump] at h
    · -- stored Str: no parameter kind stores strings
      rcases sp with _ | lims | ⟨d, lims⟩ | ⟨d, lims⟩ | ⟨ename, ms⟩ | _ <;>
        simp [Param.wfDump] at h
    · -- stored enum member: only EnumParameter accepts it
      rcases sp with _ | lims | ⟨d, lims⟩ | ⟨d, lims⟩ | ⟨ename, ms⟩ | _
      case enumP =>
        simp only [Param.wfDump, Bool.and_eq_true, beq_iff_eq] at h
        obtain ⟨h1, h2⟩ := h
        subst h1
        refine ⟨PyVal.atom (PyAtom.aStr mn),
          by simp [Param.dumpVal, pyName, PyVal.vEnum, PyVal.vStr], ?_⟩
        have hne : PyVal.atom (PyAtom.aEnum en mn) ≠ PyVal.vNone := by simp [PyVal.vNone]
        simp only [Param.loadVal, PyVal.vStr, h2, if_true]
        rw [show PyVal.vEnum en mn = PyVal.atom (PyAtom.aEnum en mn) from rfl,
          sanitize_of_ne_none _ _ hne]
        simp [Param.sanitizeRaw]
      all_goals simp [Param.wfDump] at h
  · -- stored list: a float range or a sensor list
    rcases sp with _ | lims | ⟨d, lims⟩ | ⟨d, lims⟩ | ⟨ename, ms⟩ | _
    case floatRangeP =>
      rcases xs with _ | ⟨x, _ | ⟨y, _ | _⟩⟩
      case cons.cons.cons => simp [Param.wfDump] at h
      case nil => simp [Param.wfDump] at h
      case cons.nil => simp [Param.wfDump] at h
      rcases x with _ | _ | _ | qa | _ | _
      case aFloat =>
        rcases y with _ | _ | _ | qb | _ | _
        case aFloat =>
          simp only [Param.wfDump, Bool.and_eq_true, beq_iff_eq, decide_eq_true_eq] at h
          obtain ⟨⟨⟨⟨ha, hb⟩, hwa⟩, hwb⟩, hab⟩ := h
          refine ⟨PyVal.vList [.aFloat qa, .aFloat qb], by simp [Param.dumpVal, pyIter], ?_⟩
          have hne : PyVal.vList [PyAtom.aFloat qa, PyAtom.aFloat qb] ≠ PyVal.vNone := by
            simp [PyVal.vNone]
          rw [Param.loadVal, sanitize_of_ne_none _ _ hne]
          simp only [Param.sanitizeRaw, floatRangeSan, pyIter]
          rw [show PyVal.atom (PyAtom.aFloat qa) = PyVal.vFloat qa from rfl,
            show PyVal.atom (PyAtom.aFloat qb) = PyVal.vFloat qb from rfl,
            floatSanQ_fixed d lims qa ha hwa, floatSanQ_fixed d lims qb hb hwb]
          simp [not_lt.mpr hab]
        all_goals simp [Param.wfDump] at h
      all_goals simp [Param.wfDump] at h
    case sensorP =>
      simp only [Param.wfDump] at h
      refine ⟨PyVal.vList xs, by simp [Param.dumpVal], ?_⟩
      have hne : PyVal.vList xs ≠ PyVal.vNone := by simp [PyVal.vNone]
      rw [Param.loadVal, sanitize_of_ne_none _ _ hne]
      simp [Param.sanitizeRaw, sensorSan, h]
    all_goals simp [Param.wfDump] at h

/-- The keys of a successful parameter dump are exactly the keys of the
parameters with `does_dump` set, in order. -/
theorem dumpParams_keys (st : ConfigState) :
    ∀ (ps : List (String × Param)) (pairs : List (String × PyVal)),
      Config.dumpParams st ps = .ok pairs →
      pairs.map Prod.fst = (ps.filter (fun kp => kp.2.does_dump)).map Prod.fst := by
  intro ps
  induction ps with
  | nil =>
    intro pairs h
    simp only [Config.dumpParams, Except.ok.injEq] at h
    simp [← h]
  | cons kp rest ih =>
    intro pairs h
    rcases kp with ⟨k, p⟩
    by_cases hd : p.does_dump = true
    · simp only [Config.dumpParams, hd, if_true] at h
      rcases hdump : p.dumpVal (Config.getVal st k p) with e | w
      · rw [hdump] at h
        cases h
      · rw [hdump] at h
        rcases hrest : Config.dumpParams st rest with e | tail
        · rw [hrest] at h
          cases h
        · rw [hrest] at h
          injection h with h
          simp [← h, List.filter_cons, hd, ih tail hrest]
    · simp only [Config.dumpParams, hd, if_false] at h
      simp [List.filter_cons, hd, ih pairs h]

/-- When every dumping parameter holds a `wfDump` value the dump succeeds,
every dumped entry loads back to the stored value, and every dumping
parameter is dumped. -/
theorem dumpParams_wf (st : ConfigState) :
    ∀ (ps : List (String × Param)),
      (∀ kp ∈ ps, kp.2.does_dump = true → kp.2.wfDump (Config.getVal st kp.1 kp.2) = true) →
      ∃ pairs, Config.dumpParams st ps = .ok pairs ∧
        (∀ k w, (k, w) ∈ pairs → ∃ p, (k, p) ∈ ps ∧ p.does_dump = true ∧
            p.loadVal w = .ok (Config.getVal st k p)) ∧
        (∀ k p, (k, p) ∈ ps → p.does_dump = true → ∃ w, (k, w) ∈ pairs) := by
  intro ps
  induction ps with
  | nil => exact fun _ => ⟨[], by simp [Config.dumpParams], by simp, by simp⟩
  | cons kp rest ih =>
    intro hwf
    rcases kp with ⟨k, p⟩
    obtain ⟨tail, htail, htail1, htail2⟩ :=
      ih (fun kp hm hd => hwf kp (List.mem_cons_of_mem _ hm) hd)
    by_cases hd : p.does_dump = true
    · have hwfk := hwf (k, p) (List.mem_cons_self _ _) hd
      obtain ⟨w, hdump, hload⟩ := wfDump_roundtrip p (Config.getVal st k p) hwfk
      refine ⟨(k, w) :: tail, ?_, ?_, ?_⟩
      · simp [Config.dumpParams, hd, hdump, htail]
      · intro k1 w1 hm
        rcases List.mem_cons.mp hm with hh | hh
        · cases hh
          exact ⟨p, List.mem_cons_self _ _, hd, hload⟩
        · obtain ⟨p1, hp1, hp2, hp3⟩ := htail1 k1 w1 hh
          exact ⟨p1, List.mem_cons_of_mem _ hp1, hp2, hp3⟩
      · intro k1 p1 hm hd1
        rcases List.mem_cons.mp hm with hh | hh
        · cases hh
          exact ⟨w, List.mem_cons_self _ _⟩
        · obtain ⟨w1, hw1⟩ := htail2 k1 p1 hh hd1
          exact ⟨w1, List.mem_cons_of_mem _ hw1⟩
    · refine ⟨tail, by simp [Config.dumpParams, hd, htail], ?_, ?_⟩
      · intro k1 w1 hm
        obtain ⟨p1, hp1, hp2, hp3⟩ := htail1 k1 w1 hm
        exact ⟨p1, List.mem_cons_of_mem _ hp1, hp2, hp3⟩
      · intro k1 p1 hm hd1
        rcases List.mem_cons.mp hm with hh | hh
        · cases hh
          exact absurd hd1 hd
        · exact htail2 k1 p1 hh hd1

/-- When every item of a loaded dictionary names a declared parameter and
loads successfully, the load loop succeeds; keys outside the dictionary
keep their stored value and (for duplicate-free dictionaries) each loaded
key ends up holding its loaded value. -/
theorem loadItems_spec (params : List (String × Param)) :
    ∀ (d : List (String × PyVal)) (st : ConfigState),
      (∀ kv ∈ d, ∃ p w, List.lookup kv.1 params = some p ∧ p.loadVal kv.2 = .ok w) →
      ∃ st2, Config.loadItems params st d = .ok st2 ∧
        (∀ k, k ∉ d.map Prod.fst → List.lookup k st2 = List.lookup k st) ∧
        ((d.map Prod.fst).Nodup →
          ∀ kv ∈ d, ∀ p w, List.lookup kv.1 params = some p → p.loadVal kv.2 = .ok w →
            List.lookup kv.1 st2 = some w) := by
  intro d
  induction d with
  | nil => exact fun st _ => ⟨st, by simp [Config.loadItems], by simp, by simp⟩
  | cons kv rest ih =>
    intro st hld
    rcases kv with ⟨k, v⟩
    obtain ⟨p, w, hp, hw⟩ := hld (k, v) (List.mem_cons_self _ _)
    obtain ⟨st2, hst2, hpres, hload⟩ := ih (setAssoc st k w)
      (fun kv hm => hld kv (List.mem_cons_of_mem _ hm))
    refine ⟨st2, ?_, ?_, ?_⟩
    · simp [Config.loadItems, hp, hw, hst2]
    · intro k1 hk1
      simp only [List.map_cons, List.mem_cons] at hk1
      push_neg at hk1
      rw [hpres k1 hk1.2, lookup_setAssoc_ne st k w k1 hk1.1]
    · intro hnd kv hm p1 w1 hp1 hw1
      simp only [List.map_cons, List.nodup_cons] at hnd
      rcases List.mem_cons.mp hm with hh | hh
      · cases hh
        rw [hp] at hp1
        injection hp1 with hp1
        subst hp1
        rw [hw] at hw1
        injection hw1 with hw1
        subst hw1
        rw [hpres k hnd.1, lookup_setAssoc_self]
      · exact hload hnd.2 kv hh p1 w1 hp1 hw1

theorem checkLimitsI_msg (lims : Option (Option Int × Option Int)) (n : Int) (m : String)
    (h : checkLimitsI lims n = .error (.valueError m)) :
    m = "Given value is too low" ∨ m = "Given value is too high" := by
  rw [checkLimitsI_eq] at h
  split at h
  · simp only [Except.error.injEq, PyErr.valueError.injEq] at h
    exact Or.inl h.symm
  · split at h
    · simp only [Except.error.injEq, PyErr.valueError.injEq] at h
      exact Or.inr h.symm
    · cases h

theorem checkLimitsQ_msg (lims : Option (Option Rat × Option Rat)) (q : Rat) (m : String)
    (h : checkLimitsQ lims q = .error (.valueError m)) :
    m = "Given value is too low" ∨ m = "Given value is too high" := by
  rw [checkLimitsQ_eq] at h
  split at h
  · simp only [Except.error.injEq, PyErr.valueError.injEq] at h
    exact Or.inl h.symm
  · split at h
    · simp only [Except.error.injEq, PyErr.valueError.injEq] at h
      exact Or.inr h.symm
    · cases h

theorem floatOfVal_msg (v : PyVal) (m : String)
    (h : floatOfVal v = .error (.valueError m)) : m = "Not a valid number" := by
  rcases v with a | xs
  · rcases a with _ | b | n | q | s | ⟨en, mn⟩ <;>
      simp only [floatOfVal] at h <;> try cases h
    split at h
    · cases h
    · simp only [Except.error.injEq, PyErr.valueError.injEq] at h
      exact h.symm
  · simp only [floatOfVal] at h
    cases h

theorem floatSanQ_msg (d : Nat) (lims : Option (Option Rat × Option Rat)) (v : PyVal)
    (m : String) (h : floatSanQ d lims v = .error (.valueError m)) :
    m = "Not a valid number" ∨ m = "Given value is too low" ∨
      m = "Given value is too high" := by
  unfold floatSanQ at h
  split at h
  · injection h with h
    subst h
    exact Or.inl (floatOfVal_msg v m (by assumption))
  · exact Or.inr (checkLimitsQ_msg _ _ _ h)

theorem intSan_msg (lims : Option (Option Int × Option Int)) (v : PyVal) (m : String)
    (h : intSan lims v = .error (.valueError m)) :
    m = "Not an integer" ∨ m = "Not a valid integer" ∨
      m = "Given value is too low" ∨ m = "Given value is too high" := by
  rcases v with a | xs
  · rcases a with _ | b | n | q | s | ⟨en, mn⟩ <;> simp only [intSan] at h <;> try cases h
    · -- Bool
      split at h
      · injection h with h
        subst h
        exact Or.inr (Or.inr (checkLimitsI_msg _ _ _ (by assumption)))
      · cases h
    · -- Int
      split at h
      · injection h with h
        subst h
        exact Or.inr (Or.inr (checkLimitsI_msg _ _ _ (by assumption)))
      · cases h
    · -- Float
      split at h
      · simp only [Except.error.injEq, PyErr.valueError.injEq] at h
        exact Or.inl h.symm
      · split at h
        · injection h with h
          subst h
          exact Or.inr (Or.inr (checkLimitsI_msg _ _ _ (by assumption)))
        · cases h
    · -- Str
      split at h
      · split at h
        · injection h with h
          subst h
          exact Or.inr (Or.inr (checkLimitsI_msg _ _ _ (by assumption)))
        · cases h
      · simp only [Except.error.injEq, PyErr.valueError.injEq] at h
        exact Or.inr (Or.inl h.symm)
  · simp only [intSan] at h
    cases h

theorem floatRangeSan_msg (d : Nat) (lims : Option (Option Rat × Option Rat)) (arg : PyVal)
    (m : String) (h : floatRangeSan d lims arg = .error (.valueError m)) :
    m = "Not a valid range" ∨ m = "Given range does not have two values" ∨
      m = "Invalid range" ∨ m = "Not a valid number" ∨
      m = "Given value is too low" ∨ m = "Given value is too high" := by
  unfold floatRangeSan at h
  split at h
  · simp only [Except.error.injEq, PyErr.valueError.injEq] at h
    exact Or.inl h.symm
  · split at h
    · split at h
      · injection h with h
        subst h
        rcases floatSanQ_msg _ _ _ _ (by assumption) with h1 | h1 | h1 <;> simp [h1]
      · split at h
        · injection h with h
          subst h
          rcases floatSanQ_msg _ _ _ _ (by assumption) with h1 | h1 | h1 <;> simp [h1]
        · split at h
          · simp only [Except.error.injEq, PyErr.valueError.injEq] at h
            exact Or.inr (Or.inr (Or.inl h.symm))
          · cases h
    · simp only [Except.error.injEq, PyErr.valueError.injEq] at h
      exact Or.inr (Or.inl h.symm)

theorem sensorSan_msg (v : PyVal) (m : String)
    (h : sensorSan v = .error (.valueError m)) :
    m = "sensor(s) must be an int or a list of ints" := by
  rcases v with a | xs
  · rcases a with _ | b | n | q | s | ⟨en, mn⟩ <;> simp only [sensorSan] at h <;>
      first
        | (simp only [Except.error.injEq, PyErr.valueError.injEq] at h
           exact h.symm)
        | cases h
  · simp only [sensorSan] at h
    split at h
    · cases h
    · simp only [Except.error.injEq, PyErr.valueError.injEq] at h
      exact h.symm

/-- Every ValueError any parameter validation can raise carries one of the
sanitizer messages, and none of them is the version-mismatch message of
`Config._loads`. -/
theorem sanitize_valueError_msg (p : Param) (v : PyVal) (m : String)
    (h : p.sanitize v = .error (.valueError m)) :
    m ≠ "Configuration version mismatch" := by
  by_cases hopt : (p.optional && (v == PyVal.vNone)) = true
  · rw [Param.sanitize, if_pos hopt] at h
    cases h
  · rw [Param.sanitize, if_neg hopt] at h
    rcases p with ⟨sp, opt, dd, dv⟩
    rcases sp with _ | lims | ⟨d, lims⟩ | ⟨d, lims⟩ | ⟨ename, ms⟩ | _ <;>
      simp only [Param.sanitizeRaw] at h
    · cases h
    · rcases intSan_msg lims v m h with h1 | h1 | h1 | h1 <;> simp [h1]
    · unfold floatSan at h
      split at h
      · injection h with h
        subst h
        rcases floatSanQ_msg d lims v m (by assumption) with h1 | h1 | h1 <;> simp [h1]
      · cases h
    · rcases floatRangeSan_msg d lims v m h with h1 | h1 | h1 | h1 | h1 | h1 <;> simp [h1]
    · cases h
    · simp [sensorSan_msg v m h]

/-- The exact numeric value of a Python number as seen by `int(...)`:
ints, bools, and floats without a fractional part. -/
def intNumeric : PyVal → Option Int
  | .vInt n => some n
  | .vBool b => some (if b then 1 else 0)
  | .vFloat q => if q.den = 1 then some q.num else Option.none
  | _ => Option.none

/-- The numeric value of a Python number as a rational, as seen by
`float(...)`. -/
def floatNumeric : PyVal → Option Rat
  | .vFloat q => some q
  | .vInt n => some (n : Rat)
  | .vBool b => some (if b then 1 else 0)
  | _ => Option.none

theorem checkLimitsI_low (lims : Option (Option Int × Option Int)) (n : Int)
    (h : lowViolI lims n = true) :
    checkLimitsI lims n = .error (.valueError ("Given value is too low")) := by
  rw [checkLimitsI_eq, h]
  simp

theorem checkLimitsI_high (lims : Option (Option Int × Option Int)) (n : Int)
    (h1 : lowViolI lims n = false) (h2 : highViolI lims n = true) :
    checkLimitsI lims n = .error (.valueError ("Given value is too high")) := by
  rw [checkLimitsI_eq, h1, h2]
  simp

theorem checkLimitsQ_low (lims : Option (Option Rat × Option Rat)) (q : Rat)
    (h : lowViolQ lims q = true) :
    checkLimitsQ lims q = .error (.valueError ("Given value is too low")) := by
  rw [checkLimitsQ_eq, h]
  simp

theorem checkLimitsQ_high (lims : Option (Option Rat × Option Rat)) (q : Rat)
    (h1 : lowViolQ lims q = false) (h2 : highViolQ lims q = true) :
    checkLimitsQ lims q = .error (.valueError ("Given value is too high")) := by
  rw [checkLimitsQ_eq, h1, h2]
  simp

/-- C1 (amended): for `IntParameter._sanitize`, a numeric value strictly
below a present lower limit raises `ValueError("Given value is too low")`,
one strictly above a present upper limit raises
`ValueError("Given value is too high")`, and a value within the limits is
accepted and stored as its integer value.  For `FloatParameter._sanitize`
the same holds of the value AFTER rounding to the parameter's `decimals`:
the rounded value is compared against the limits and the rounded value is
stored, so a raw value slightly outside the limits whose rounding falls
inside them is accepted (see the counterexample). -/
theorem c1_limit_checks :
    (∀ (lims : Option (Option Int × Option Int)) (v : PyVal) (n : Int),
        intNumeric v = some n →
        (lowViolI lims n = true →
            intSan lims v = .error (.valueError ("Given value is too low"))) ∧
        (lowViolI lims n = false → highViolI lims n = true →
            intSan lims v = .error (.valueError ("Given value is too high"))) ∧
        (withinI lims n = true → intSan lims v = .ok (.vInt n)))
    ∧
    (∀ (d : Nat) (lims : Option (Option Rat × Option Rat)) (v : PyVal) (q : Rat),
        floatNumeric v = some q →
        (lowViolQ lims (pround d q) = true →
            floatSan d lims v = .error (.valueError ("Given value is too low"))) ∧
        (lowViolQ lims (pround d q) = false → highViolQ lims (pround d q) = true →
            floatSan d lims v = .error (.valueError ("Given value is too high"))) ∧
        (withinQ lims (pround d q) = true →
            floatSan d lims v = .ok (.vFloat (pround d q)))) := by
  constructor
  · intro lims v n hn
    rcases v with a | xs
    · rcases a with _ | b | k | q | s | ⟨en, mn⟩ <;> simp only [intNumeric] at hn <;>
        try cases hn
      · -- Bool
        refine ⟨?_, ?_, ?_⟩
        · intro h1
          simp [intSan, checkLimitsI_low lims _ h1]
        · intro h1 h2
          simp [intSan, checkLimitsI_high lims _ h1 h2]
        · intro hin
          simp [intSan, checkLimitsI_within lims _ hin]
      · -- Int
        refine ⟨?_, ?_, ?_⟩
        · intro h1
          simp [intSan, checkLimitsI_low lims _ h1]
        · intro h1 h2
          simp [intSan, checkLimitsI_high lims _ h1 h2]
        · intro hin
          simp [intSan, checkLimitsI_within lims _ hin]
      · -- Float with integral value
        split at hn
        · injection hn with hn
          subst hn
          have hd : ¬(q.den ≠ 1) := by
            intro hc
            exact hc (by assumption)
          refine ⟨?_, ?_, ?_⟩
          · intro h1
            simp [intSan, hd, checkLimitsI_low lims _ h1]
          · intro h1 h2
            simp [intSan, hd, checkLimitsI_high lims _ h1 h2]
          · intro hin
            simp [intSan, hd, checkLimitsI_within lims _ hin]
        · cases hn
    · cases hn
  · intro d lims v q hq
    rcases v with a | xs
    · rcases a with _ | b | k | q0 | s | ⟨en, mn⟩ <;> simp only [floatNumeric] at hq <;>
        try cases hq
      all_goals refine ⟨?_, ?_, ?_⟩
      all_goals first
        | (intro h1
           simp [floatSan, floatSanQ, floatOfVal, checkLimitsQ_low lims _ h1])
        | (intro h1 h2
           simp [floatSan, floatSanQ, floatOfVal, checkLimitsQ_high lims _ h1 h2])
        | (intro hin
           simp [floatSan, floatSanQ, floatOfVal, checkLimitsQ_within lims _ hin])
    · cases hq

/-- C1 counterexample: a `FloatParameter` with `decimals = 2` (the source
default) and limits `(0, 1)`.  The value `-0.001` is strictly below the
non-None lower limit `0`, yet `_sanitize` accepts it and stores `0.0`,
because the value is rounded before the limit comparison
(`round(-0.001, 2) == -0.0`, which is not `< 0`).  The claim says this
set must raise a ValueError. -/
theorem c1_counterexample :
    mkRat (-1) 1000 < 0 ∧
    floatSan 2 (some (some 0, some 1)) (.vFloat (mkRat (-1) 1000)) = .ok (.vFloat 0) := by
  constructor
  · decide
  · decide

/-- C1 witness. -/
theorem c1_witness :
    intSan (some (some 2, some 10)) (.vInt 1) =
      .error (.valueError ("Given value is too low")) ∧
    intSan (some (some 2, some 10)) (.vInt 11) =
      .error (.valueError ("Given value is too high")) ∧
    intSan (some (some 2, some 10)) (.vInt 5) = .ok (.vInt 5) ∧
    floatSan 2 (some (some 0, some 1)) (.vFloat (mkRat 1 2)) =
      .ok (.vFloat (pround 2 (mkRat 1 2))) :=
  ⟨(c1_limit_checks.1 (some (some 2, some 10)) (.vInt 1) 1 (by decide)).1 (by decide),
   (c1_limit_checks.1 (some (some 2, some 10)) (.vInt 11) 11 (by decide)).2.1 (by decide)
     (by decide),
   (c1_limit_checks.1 (some (some 2, some 10)) (.vInt 5) 5 (by decide)).2.2 (by decide),
   (c1_limit_checks.2 2 (some (some 0, some 1)) (.vFloat (mkRat 1 2)) (mkRat 1 2)
     (by decide)).2.2 (by decide)⟩

/-- C2: loading a configuration whose `VERSION` tag does not match the
class `VERSION` raises `ValueError("Configuration version mismatch")`
(carrying the untouched state), and that error is distinct from every
value error the parameter validators can raise: no sanitize path produces
the version-mismatch message. -/
theorem c2_version_mismatch_distinct (c : ConfigClass) (st : ConfigState)
    (d : List (String × PyVal))
    (h : versionOk (List.lookup ("VERSION") d) c.VERSION = false) :
    Config.loads c st d = .error (.valueError ("Configuration version mismatch"), st) ∧
    ∀ (p : Param) (v : PyVal) (m : String),
        p.sanitize v = .error (.valueError m) → m ≠ "Configuration version mismatch" := by
  constructor
  · simp [Config.loads, h]
  · exact fun p v m hm => sanitize_valueError_msg p v m hm

/-- C2 witness. -/
theorem c2_witness :
    Config.loads ⟨some 3, []⟩ [] [(("VERSION" : String), PyVal.vInt 2)] =
      .error (.valueError ("Configuration version mismatch"), []) :=
  (c2_version_mismatch_distinct ⟨some 3, []⟩ [] [(("VERSION" : String), PyVal.vInt 2)]
    (by decide)).1

/-- C3: a successful `Config._dumps` produces a dictionary whose keys are
exactly the declared parameter names with `does_dump` set, in order,
followed by a `"VERSION"` key exactly when the class `VERSION` is not
`None`; when present, the `"VERSION"` entry holds the class version. -/
theorem c3_dumps_keys (c : ConfigClass) (st : ConfigState) (d : List (String × PyVal))
    (h : Config.dumps c st = .ok d) :
    d.map Prod.fst =
      (c.params.filter (fun kp => kp.2.does_dump)).map Prod.fst ++
        (match c.VERSION with | some _ => ["VERSION"] | Option.none => []) ∧
    (∀ n, c.VERSION = some n → (("VERSION" : String), PyVal.vInt n) ∈ d) := by
  unfold Config.dumps at h
  split at h
  · cases h
  · injection h with h
    subst h
    constructor
    · rw [List.map_append, dumpParams_keys st c.params _ (by assumption)]
      rcases c.VERSION with _ | n <;> simp
    · intro n hv
      rw [hv]
      simp

/-- Config used in the C3 witness: one dumping parameter, one non-dumping
parameter, and a version tag. -/
def wCfgC3 : ConfigClass :=
  ⟨some 7, [(("en" : String), ⟨.boolP, false, true, .vBool false⟩),
            (("hid" : String), ⟨.intP Option.none, false, false, .vInt 0⟩)]⟩

/-- C3 witness. -/
theorem c3_witness :
    ([(("en" : String), PyVal.vBool false),
      (("VERSION" : String), PyVal.vInt 7)] : List (String × PyVal)).map Prod.fst =
      (wCfgC3.params.filter (fun kp => kp.2.does_dump)).map Prod.fst ++
        (match wCfgC3.VERSION with | some _ => ["VERSION"] | Option.none => []) ∧
    (∀ n, wCfgC3.VERSION = some n →
      (("VERSION" : String), PyVal.vInt n) ∈
        [(("en" : String), PyVal.vBool false), (("VERSION" : String), PyVal.vInt 7)]) :=
  c3_dumps_keys wCfgC3 [] _ (by decide)

/-- C4 (amended): for a config whose declared parameter names are distinct
and none of which is named `"VERSION"`, and whose dumping parameters hold
well-formed stored values (`wfDump`: validated values of the parameter's
own kind, with enum values members of the parameter's own enum and
optional enum / float-range parameters not `None`), `Config._dumps`
succeeds and feeding the result back into `Config._loads` succeeds and
leaves every dumping parameter with the value it had when dumped.  The
original claim, quantified over all values accepted by the validating
setters, is false because `EnumParameter` inherits the identity
`_sanitize` and validates nothing (see the counterexample). -/
theorem c4_dump_load_roundtrip (c : ConfigClass) (st : ConfigState)
    (hnd : (c.params.map Prod.fst).Nodup)
    (hver : ("VERSION" : String) ∉ c.params.map Prod.fst)
    (hwf : ∀ kp ∈ c.params, kp.2.does_dump = true →
        kp.2.wfDump (Config.getVal st kp.1 kp.2) = true) :
    ∃ d st2, Config.dumps c st = .ok d ∧ Config.loads c st d = .ok st2 ∧
      ∀ kp ∈ c.params, kp.2.does_dump = true →
        Config.getVal st2 kp.1 kp.2 = Config.getVal st kp.1 kp.2 := by
  obtain ⟨pairs, hpairs, hback, hall⟩ := dumpParams_wf st c.params hwf
  have hkeys := dumpParams_keys st c.params pairs hpairs
  have hsubkeys : ∀ k, k ∈ pairs.map Prod.fst → k ∈ c.params.map Prod.fst := by
    intro k hk
    rw [hkeys] at hk
    obtain ⟨kp, hkp, hfst⟩ := List.mem_map.mp hk
    exact List.mem_map.mpr ⟨kp, List.mem_of_mem_filter hkp, hfst⟩
  have hvpairs : ("VERSION" : String) ∉ pairs.map Prod.fst := fun hc => hver (hsubkeys _ hc)
  have hndpairs : (pairs.map Prod.fst).Nodup := by
    rw [hkeys]
    exact hnd.sublist ((List.filter_sublist c.params).map Prod.fst)
  have hlkv : List.lookup ("VERSION") pairs = Option.none :=
    lookup_eq_none_of_not_mem_keys pairs _ hvpairs
  -- the version suffix appended by dumps
  set vsuffix : List (String × PyVal) :=
    (match c.VERSION with
      | some n => [(("VERSION" : String), PyVal.vInt n)]
      | Option.none => []) with hvs
  have hdumps : Config.dumps c st = .ok (pairs ++ vsuffix) := by
    rw [Config.dumps, hpairs, hvs]
  have hvok : versionOk (List.lookup ("VERSION") (pairs ++ vsuffix)) c.VERSION = true := by
    rw [lookup_append_left pairs vsuffix _ hlkv, hvs]
    rcases c.VERSION with _ | n <;> simp [List.lookup, versionOk]
  have hfilter : (pairs ++ vsuffix).filter (fun kv => kv.1 != ("VERSION")) = pairs := by
    rw [List.filter_append]
    have h1 : pairs.filter (fun kv => kv.1 != ("VERSION")) = pairs := by
      rw [List.filter_eq_self]
      intro kv hkv
      simp only [bne_iff_ne, ne_eq]
      intro hc
      exact hvpairs (List.mem_map.mpr ⟨kv, hkv, hc⟩)
    have h2 : vsuffix.filter (fun kv => kv.1 != ("VERSION")) = [] := by
      rw [hvs]
      rcases c.VERSION with _ | n <;> simp
    rw [h1, h2, List.append_nil]
  obtain ⟨st2, hst2, hpres, hload⟩ := loadItems_spec c.params pairs st (by
    intro kv hkv
    obtain ⟨p, hpmem, hpd, hplv⟩ := hback kv.1 kv.2 (by
      rcases kv with ⟨k1, w1⟩
      exact hkv)
    exact ⟨p, Config.getVal st kv.1 p, lookup_of_mem_nodup c.params hnd _ _ hpmem, hplv⟩)
  have hloads : Config.loads c st (pairs ++ vsuffix) = .ok st2 := by
    rw [Config.loads, hvok, if_pos rfl, hfilter]
    exact hst2
  refine ⟨pairs ++ vsuffix, st2, hdumps, hloads, ?_⟩
  rintro ⟨k, p⟩ hmem hd
  obtain ⟨w, hw⟩ := hall k p hmem hd
  obtain ⟨p1, hp1mem, hp1d, hp1lv⟩ := hback k w hw
  have hlup : List.lookup k c.params = some p := lookup_of_mem_nodup c.params hnd _ _ hmem
  have hlup1 : List.lookup k c.params = some p1 := lookup_of_mem_nodup c.params hnd _ _ hp1mem
  have hpp : p1 = p := by
    rw [hlup] at hlup1
    injection hlup1 with hlup1
    exact hlup1.symm
  subst hpp
  have := hload hndpairs (k, w) hw p1 (Config.getVal st k p1) hlup hp1lv
  unfold Config.getVal
  rw [this]
  rfl

/-- The `EnumParameter` used in the C4 counterexample: enum `Mode` with
members `A` and `B`. -/
def modeParam : Param := ⟨.enumP ("Mode") ["A", "B"], false, true, .vEnum ("Mode") ("A")⟩

/-- The config class used in the C4 counterexample. -/
def enumCfg : ConfigClass := ⟨some 1, [(("mode" : String), modeParam)]⟩

/-- C4 counterexample: `EnumParameter` inherits the identity
`ValueParameter._sanitize`, so the validating setter accepts a member of a
DIFFERENT enum (here `Other.Z`).  `_dumps` then succeeds, dumping it by
name as `"Z"`, but `_loads` of the dumped dictionary fails with a KeyError
from `Mode["Z"]` — the round trip of the claim does not succeed even
though every value was set through the validating setters. -/
theorem c4_counterexample :
    modeParam.sanitize (.vEnum ("Other") ("Z")) = .ok (.vEnum ("Other") ("Z")) ∧
    Config.dumps enumCfg [(("mode" : String), .vEnum ("Other") ("Z"))] =
      .ok [(("mode" : String), .vStr ("Z")), (("VERSION" : String), PyVal.vInt 1)] ∧
    Config.loads enumCfg [(("mode" : String), .vEnum ("Other") ("Z"))]
        [(("mode" : String), .vStr ("Z")), (("VERSION" : String), PyVal.vInt 1)] =
      .error (.keyError ("Z"), [(("mode" : String), .vEnum ("Other") ("Z"))]) := by
  refine ⟨by decide, by decide, by decide⟩

/-- Config used in the C4 witness: a float parameter with stored value
`0.5` and an enum parameter left at its default. -/
def wCfgC4 : ConfigClass :=
  ⟨some 2, [(("gain" : String), ⟨.floatP 2 (some (some 0, some 1)), false, true, .vFloat 0⟩),
            (("mode2" : String), ⟨.enumP ("M") ["X", "Y"], false, true, .vEnum ("M") ("X")⟩)]⟩

/-- C4 witness. -/
theorem c4_witness :
    ∃ d st2, Config.dumps wCfgC4 [(("gain" : String), PyVal.vFloat (mkRat 1 2))] = .ok d ∧
      Config.loads wCfgC4 [(("gain" : String), PyVal.vFloat (mkRat 1 2))] d = .ok st2 ∧
      ∀ kp ∈ wCfgC4.params, kp.2.does_dump = true →
        Config.getVal st2 kp.1 kp.2 =
          Config.getVal [(("gain" : String), PyVal.vFloat (mkRat 1 2))] kp.1 kp.2 :=
  c4_dump_load_roundtrip wCfgC4 [(("gain" : String), PyVal.vFloat (mkRat 1 2))]
    (by decide) (by decide) (by decide)

/-- C5: `IntParameter._sanitize` rejects floats with a nonzero fractional
part with `ValueError("Not an integer")`, coerces an integral float to its
integer value and an int-parseable string to its parsed integer (strings
that do not parse raise `ValueError("Not a valid integer")`), and every
value it successfully stores is an int. -/
theorem c5_int_coercion :
    (∀ (lims : Option (Option Int × Option Int)) (q : Rat), q.den ≠ 1 →
        intSan lims (.vFloat q) = .error (.valueError ("Not an integer")))
    ∧ (∀ (lims : Option (Option Int × Option Int)) (q : Rat), q.den = 1 →
        withinI lims q.num = true → intSan lims (.vFloat q) = .ok (.vInt q.num))
    ∧ (∀ (lims : Option (Option Int × Option Int)) (s : String) (n : Int),
        pyParseInt s = some n → withinI lims n = true →
        intSan lims (.vStr s) = .ok (.vInt n))
    ∧ (∀ (lims : Option (Option Int × Option Int)) (s : String),
        pyParseInt s = Option.none →
        intSan lims (.vStr s) = .error (.valueError ("Not a valid integer")))
    ∧ (∀ (lims : Option (Option Int × Option Int)) (v w : PyVal),
        intSan lims v = .ok w → ∃ n, w = .vInt n) := by
  refine ⟨?_, ?_, ?_, ?_, ?_⟩
  · intro lims q hq
    simp [intSan, hq]
  · intro lims q hq hin
    have hd : ¬(q.den ≠ 1) := fun hc => hc hq
    simp [intSan, hd, checkLimitsI_within lims _ hin]
  · intro lims s n hs hin
    simp [intSan, hs, checkLimitsI_within lims _ hin]
  · intro lims s hs
    simp [intSan, hs]
  · intro lims v w h
    rcases v with a | xs
    · rcases a with _ | b | n | q | s | ⟨en, mn⟩ <;> simp only [intSan] at h <;> try cases h
      · -- Bool
        split at h
        · cases h
        · injection h with h
          exact ⟨_, h.symm⟩
      · -- Int
        split at h
        · cases h
        · injection h with h
          exact ⟨_, h.symm⟩
      · -- Float
        split at h
        · cases h
        · split at h
          · cases h
          · injection h with h
            exact ⟨_, h.symm⟩
      · -- Str
        split at h
        · split at h
          · cases h
          · injection h with h
            exact ⟨_, h.symm⟩
        · cases h
    · simp only [intSan] at h
      cases h

/-- C5 witness. -/
theorem c5_witness :
    intSan Option.none (.vFloat (mkRat 5 2)) = .error (.valueError ("Not an integer")) ∧
    intSan Option.none (.vFloat (mkRat 3 1)) = .ok (.vInt (mkRat 3 1).num) ∧
    intSan Option.none (.vStr ("7")) = .ok (.vInt 7) ∧
    intSan Option.none (.vStr ("oops")) = .error (.valueError ("Not a valid integer")) :=
  ⟨c5_int_coercion.1 Option.none (mkRat 5 2) (by decide),
   c5_int_coercion.2.1 Option.none (mkRat 3 1) (by decide) (by decide),
   c5_int_coercion.2.2.1 Option.none ("7") 7 (by decide) (by decide),
   c5_int_coercion.2.2.2.1 Option.none ("oops") (by decide)⟩

/-- C6: `FloatRangeParameter._sanitize` raises
`ValueError("Not a valid range")` for a non-iterable argument,
`ValueError("Given range does not have two values")` for an iterable
without exactly two elements, `ValueError("Invalid range")` when after
per-element float sanitization the first element is strictly greater
than the second, and accepts a valid two-element range with both
endpoints sanitized as floats. -/
theorem c6_float_range_sanitize :
    (∀ (d : Nat) (lims : Option (Option Rat × Option Rat)) (arg : PyVal),
        pyIter arg = Option.none →
        floatRangeSan d lims arg = .error (.valueError ("Not a valid range")))
    ∧ (∀ (d : Nat) (lims : Option (Option Rat × Option Rat)) (arg : PyVal)
        (xs : List PyAtom), pyIter arg = some xs → xs.length ≠ 2 →
        floatRangeSan d lims arg =
          .error (.valueError ("Given range does not have two values")))
    ∧ (∀ (d : Nat) (lims : Option (Option Rat × Option Rat)) (arg : PyVal)
        (x y : PyAtom) (a b : Rat), pyIter arg = some [x, y] →
        floatSanQ d lims (.atom x) = .ok a → floatSanQ d lims (.atom y) = .ok b →
        ((a > b → floatRangeSan d lims arg = .error (.valueError ("Invalid range"))) ∧
         (a ≤ b → floatRangeSan d lims arg = .ok (.vList [.aFloat a, .aFloat b])))) := by
  refine ⟨?_, ?_, ?_⟩
  · intro d lims arg h
    simp [floatRangeSan, h]
  · intro d lims arg xs h hlen
    rw [floatRangeSan, h]
    rcases xs with _ | ⟨x, _ | ⟨y, _ | ⟨z, rest⟩⟩⟩ <;> first
      | rfl
      | (exfalso; exact hlen rfl)
  · intro d lims arg x y a b h ha hb
    constructor
    · intro hab
      rw [floatRangeSan, h]
      simp only [ha, hb]
      rw [if_pos hab]
    · intro hab
      rw [floatRangeSan, h]
      simp only [ha, hb]
      rw [if_neg (not_lt.mpr hab)]

/-- C6 witness. -/
theorem c6_witness :
    floatRangeSan 2 Option.none (.vInt 5) = .error (.valueError ("Not a valid range")) ∧
    floatRangeSan 2 Option.none (.vList [.aInt 1]) =
      .error (.valueError ("Given range does not have two values")) ∧
    floatRangeSan 2 Option.none (.vList [.aFloat (mkRat 3 4), .aFloat (mkRat 1 4)]) =
      .error (.valueError ("Invalid range")) ∧
    floatRangeSan 2 Option.none (.vList [.aFloat (mkRat 1 4), .aFloat (mkRat 3 4)]) =
      .ok (.vList [.aFloat (mkRat 1 4), .aFloat (mkRat 3 4)]) :=
  ⟨c6_float_range_sanitize.1 2 Option.none _ (by decide),
   c6_float_range_sanitize.2.1 2 Option.none _ [.aInt 1] (by decide) (by decide),
   (c6_float_range_sanitize.2.2 2 Option.none _ (.aFloat (mkRat 3 4)) (.aFloat (mkRat 1 4))
     (mkRat 3 4) (mkRat 1 4) (by decide) (by decide) (by decide)).1 (by decide),
   (c6_float_range_sanitize.2.2 2 Option.none _ (.aFloat (mkRat 1 4)) (.aFloat (mkRat 3 4))
     (mkRat 1 4) (mkRat 3 4) (by decide) (by decide) (by decide)).2 (by decide)⟩

/-- C7: `pidget_event_handler` first validates and stores the value and
then runs every registered event handler on the config state that already
holds the new value; when validation raises, the error propagates with the
untouched state, so no handler runs and the stored values are unchanged. -/
theorem c7_pidget_event_handler (handlers : List (ConfigState → ConfigState)) (p : Param)
    (k : String) (st : ConfigState) (v : PyVal) :
    (∀ w, p.sanitize v = .ok w →
        pidgetEventHandler handlers p k st v =
          .ok (parameterEventHandler handlers (setAssoc st k w)) ∧
        List.lookup k (setAssoc st k w) = some w) ∧
    (∀ e, p.sanitize v = .error e →
        pidgetEventHandler handlers p k st v = .error (e, st)) := by
  constructor
  · intro w hw
    exact ⟨by simp [pidgetEventHandler, hw], lookup_setAssoc_self st k w⟩
  · intro e he
    simp [pidgetEventHandler, he]

/-- C7 witness. -/
theorem c7_witness :
    pidgetEventHandler [fun s => setAssoc s ("note") PyVal.vNone]
        ⟨.intP Option.none, false, true, .vInt 0⟩ ("x") [] (.vInt 3) =
      .ok [(("x" : String), PyVal.vInt 3), (("note" : String), PyVal.vNone)] ∧
    pidgetEventHandler [fun s => setAssoc s ("note") PyVal.vNone]
        ⟨.intP Option.none, false, true, .vInt 0⟩ ("x") [] (.vStr ("oops")) =
      .error (.valueError ("Not a valid integer"), []) :=
  ⟨((c7_pidget_event_handler [fun s => setAssoc s ("note") PyVal.vNone]
      ⟨.intP Option.none, false, true, .vInt 0⟩ ("x") [] (.vInt 3)).1 (.vInt 3)
      (by decide)).1,
   (c7_pidget_event_handler [fun s => setAssoc s ("note") PyVal.vNone]
      ⟨.intP Option.none, false, true, .vInt 0⟩ ("x") [] (.vStr ("oops"))).2
      (.valueError ("Not a valid integer")) (by decide)⟩

/-- C8: `Config._loads` compares `VERSION` before loading any parameter,
so when it raises the version-mismatch error the carried state is exactly
the state before the call — every parameter still holds its previous
value (the load is atomic on this error). -/
theorem c8_version_check_atomic (c : ConfigClass) (st : ConfigState)
    (d : List (String × PyVal))
    (h : versionOk (List.lookup ("VERSION") d) c.VERSION = false) :
    Config.loads c st d = .error (.valueError ("Configuration version mismatch"), st) := by
  simp [Config.loads, h]

/-- C8 witness: loading a version-2 dump into a version-1 config with a
stored parameter value leaves that value untouched in the carried
state. -/
theorem c8_witness :
    Config.loads ⟨some 1, [(("n" : String), ⟨.intP Option.none, false, true, .vInt 0⟩)]⟩
        [(("n" : String), PyVal.vInt 5)]
        [(("n" : String), PyVal.vInt 9), (("VERSION" : String), PyVal.vInt 2)] =
      .error (.valueError ("Configuration version mismatch"),
        [(("n" : String), PyVal.vInt 5)]) :=
  c8_version_check_atomic
    ⟨some 1, [(("n" : String), ⟨.intP Option.none, false, true, .vInt 0⟩)]⟩
    [(("n" : String), PyVal.vInt 5)]
    [(("n" : String), PyVal.vInt 9), (("VERSION" : String), PyVal.vInt 2)] (by decide)

/-- C9: `ValueParameter.__get__` returns a copy of the stored value (or of
the sanitized default when unset): the returned object lives at a fresh
address distinct from the stored one, holds the same contents, and
mutating it leaves the stored cell — and hence every subsequent read of
the parameter — unchanged. -/
theorem c9_get_returns_copy (stored : Option Nat) (defaultAddr : Nat) (h : List PyVal)
    (hv : stored.getD defaultAddr < h.length) :
    (valueParamGet stored defaultAddr h).2 ≠ stored.getD defaultAddr ∧
    heapRead (valueParamGet stored defaultAddr h).1 (valueParamGet stored defaultAddr h).2 =
      heapRead h (stored.getD defaultAddr) ∧
    ∀ w,
      heapRead (heapWrite (valueParamGet stored defaultAddr h).1
          (valueParamGet stored defaultAddr h).2 w) (stored.getD defaultAddr) =
        heapRead h (stored.getD defaultAddr) ∧
      heapRead
          (valueParamGet stored defaultAddr
            (heapWrite (valueParamGet stored defaultAddr h).1
              (valueParamGet stored defaultAddr h).2 w)).1
          (valueParamGet stored defaultAddr
            (heapWrite (valueParamGet stored defaultAddr h).1
              (valueParamGet stored defaultAddr h).2 w)).2 =
        heapRead h (stored.getD defaultAddr) := by
  set a := stored.getD defaultAddr with ha
  have hcells : (valueParamGet stored defaultAddr h).1 =
      h ++ [(heapRead h a).getD PyVal.vNone] := rfl
  have haddr : (valueParamGet stored defaultAddr h).2 = h.length := rfl
  have hread : heapRead h a = some (h.get ⟨a, hv⟩) := by
    simp [heapRead, List.getElem?_eq_getElem hv]
  refine ⟨?_, ?_, ?_⟩
  · rw [haddr]
    exact Nat.ne_of_gt hv
  · rw [hcells, haddr, heapRead, List.getElem?_concat_length, hread]
    rfl
  · intro w
    have hwr : heapRead (heapWrite (h ++ [(heapRead h a).getD PyVal.vNone]) h.length w) a =
        heapRead h a := by
      unfold heapWrite heapRead
      rw [List.getElem?_set_ne (Nat.ne_of_gt hv)]
      exact List.getElem?_append_left hv
    constructor
    · rw [hcells, haddr]
      exact hwr
    · rw [hcells, haddr]
      have hlen : a < (heapWrite (h ++ [(heapRead h a).getD PyVal.vNone]) h.length w).length := by
        unfold heapWrite
        rw [List.length_set, List.length_append]
        exact Nat.lt_succ_of_lt hv
      rw [show (valueParamGet stored defaultAddr
          (heapWrite (h ++ [(heapRead h a).getD PyVal.vNone]) h.length w)).2 =
          (heapWrite (h ++ [(heapRead h a).getD PyVal.vNone]) h.length w).length from rfl]
      rw [show (valueParamGet stored defaultAddr
          (heapWrite (h ++ [(heapRead h a).getD PyVal.vNone]) h.length w)).1 =
          heapWrite (h ++ [(heapRead h a).getD PyVal.vNone]) h.length w ++
            [(heapRead (heapWrite (h ++ [(heapRead h a).getD PyVal.vNone]) h.length w)
              a).getD PyVal.vNone] from rfl]
      rw [heapRead, List.getElem?_concat_length, hwr, hread]
      rfl

/-- C9 witness. -/
theorem c9_witness :
    (valueParamGet (some 0) 1 [PyVal.vInt 5, PyVal.vNone]).2 ≠ 0 ∧
    ∀ w,
      heapRead (heapWrite (valueParamGet (some 0) 1 [PyVal.vInt 5, PyVal.vNone]).1
          (valueParamGet (some 0) 1 [PyVal.vInt 5, PyVal.vNone]).2 w) 0 =
        heapRead [PyVal.vInt 5, PyVal.vNone] 0 :=
  ⟨(c9_get_returns_copy (some 0) 1 [PyVal.vInt 5, PyVal.vNone] (by decide)).1,
   fun w => ((c9_get_returns_copy (some 0) 1 [PyVal.vInt 5, PyVal.vNone] (by decide)).2.2 w).1⟩

/-- C10: `Config.__setattr__` raises an AttributeError when assigning to a
name the object does not have, and a successful assignment never changes
the set of attribute names the object has, so no assignment can create a
new attribute on a config instance (only declared parameters and existing
attributes can be assigned). -/
theorem c10_setattr_no_new_attribute (classAttrs : List String)
    (params : List (String × Param)) (st : ConfigState) (inst : List (String × PyVal))
    (name : String) (v : PyVal) :
    (hasAttrB classAttrs params inst name = false →
        configSetattr classAttrs params st inst name v =
          .error (.attributeError ("object has no attribute " ++ name))) ∧
    (∀ st2 inst2, configSetattr classAttrs params st inst name v = .ok (st2, inst2) →
        ∀ n, hasAttrB classAttrs params inst2 n = hasAttrB classAttrs params inst n) := by
  constructor
  · intro h
    simp [configSetattr, h]
  · intro st2 inst2 hok n
    unfold configSetattr at hok
    split at hok
    · split at hok
      · -- declared parameter: the instance dictionary is untouched
        split at hok
        · cases hok
        · injection hok with hok
          have : inst2 = inst := ((Prod.mk.injEq .. ▸ hok).2).symm
          rw [this]
      · -- plain existing attribute: written to the instance dictionary
        injection hok with hok
        have hinst2 : inst2 = setAssoc inst name v := (Prod.mk.injEq .. ▸ hok).2.symm
        subst hinst2
        by_cases hn : n = name
        · subst hn
          have hnew : (List.lookup n (setAssoc inst n v)).isSome = true := by
            rw [lookup_setAssoc_self]
            rfl
          unfold hasAttrB
          rw [hnew]
          simp only [Bool.true_or]
          have hold : hasAttrB classAttrs params inst n = true := by assumption
          exact hold.symm
        · unfold hasAttrB
          rw [lookup_setAssoc_ne inst name v n hn]
    · cases hok

/-- C10 witness. -/
theorem c10_witness :
    configSetattr ["VERSION"] [] [] [] ("bogus") (PyVal.vInt 1) =
      .error (.attributeError ("object has no attribute bogus")) ∧
    hasAttrB ["VERSION"] [] [(("VERSION" : String), PyVal.vInt 2)] ("VERSION") =
      hasAttrB ["VERSION"] [] [] ("VERSION") :=
  ⟨(c10_setattr_no_new_attribute ["VERSION"] [] [] [] ("bogus") (PyVal.vInt 1)).1 (by decide),
   (c10_setattr_no_new_attribute ["VERSION"] [] [] [] ("VERSION") (PyVal.vInt 2)).2 []
     [(("VERSION" : String), PyVal.vInt 2)] (by decide) ("VERSION")⟩
